import Mathlib

/-!
Verification of the background task-processing pipeline of this repository
(`src/main.py`, `src/utils.py`, `src/aipipe_client.py`).

The code is shallowly embedded: every external effect (HTTP calls, git
subprocesses, `asyncio.sleep`) is replaced by an oracle describing its
outcome, and each function of the source becomes a pure Lean function over
those outcomes.  `print` calls become an explicit log (a list of the printed
lines), the retry loop of `notify_evaluator` is instrumented with abstract
time (each `asyncio.sleep(d)` advances a clock by `d`), and Python
exceptions become explicit `Except`/`Option PyErr` values threaded exactly
along the source's `try`/`except` structure.
-/

namespace TdsProj

/-- Python `str.join`: `sep.join(items)`.  The source uses it as
`chr(10).join(...)` in both prompt builders, and implicitly through the
`str()` of a list (`", ".join` of the element reprs). -/
def joinWith (sep : String) : List String → String
  | [] => ""
  | [x] => x
  | x :: y :: xs => x ++ sep ++ joinWith sep (y :: xs)

/-- Python `repr` of a string, for strings holding no quote, backslash or
control character (the only shape the source ever feeds it: attachment
names, git command words, payload fields). -/
def pyStrRepr (s : String) : String := "'" ++ s ++ "'"

/-- Python `str`/`repr` of a list of strings, e.g. `['a', 'b']` — the form
in which the round-1 prompt interpolates the attachment names. -/
def pyListRepr (xs : List String) : String :=
  "[" ++ joinWith ", " (xs.map pyStrRepr) ++ "]"

/-- Outcome of one HTTP request made by `httpx`: a response with a status
code, or a transport-level error (the library raising), with its message. -/
inductive HttpResult where
  | status : Nat → HttpResult
  | transportError : String → HttpResult
deriving DecidableEq

/-- The success test of `notify_evaluator` (src/utils.py line 44):
`response.status_code == 200`; a transport error never reaches the test
(the `except` arm falls through to the retry sleep exactly like a non-200
status). -/
def isSuccess : HttpResult → Bool
  | HttpResult.status code => code == 200
  | HttpResult.transportError _ => false

/-- The retry loop of `notify_evaluator` (src/utils.py lines 34-54),
instrumented with abstract time.  `resp k` is the outcome of the POST made
on attempt `k` (0-based); `await asyncio.sleep(2 ** attempt)` advances the
clock by `2 ^ attempt`.  Arguments: attempt index `k`, remaining loop
iterations, current clock.  Returns the `(attempt, time-of-POST)` pairs in
order, the boolean result, and the clock value at which the function
returns. -/
def notify_evaluator (resp : Nat → HttpResult) :
    Nat → Nat → Nat → List (Nat × Nat) × Bool × Nat
  | _, 0, t => ([], false, t)
  | k, n + 1, t =>
    if isSuccess (resp k) then ([(k, t)], true, t)
    else
      let r := notify_evaluator resp (k + 1) n (t + 2 ^ k)
      ((k, t) :: r.1, r.2.1, r.2.2)

/-- `notify_evaluator` as called by the pipeline: `for attempt in range(5)`
starting at clock 0. -/
def notifyRun (resp : Nat → HttpResult) : List (Nat × Nat) × Bool × Nat :=
  notify_evaluator resp 0 5 0

/-- `enable_github_pages` (src/utils.py lines 57-73) as a function of the
activation response status: `response.status_code in [201, 204, 409]`. -/
def enable_github_pages (status : Nat) : Bool :=
  [201, 204, 409].contains status

/-- The repository URL `f"https://github.com/{username}/{repo_name}"`. -/
def githubRepoUrl (username repoName : String) : String :=
  "https://github.com/" ++ username ++ "/" ++ repoName

/-- `create_github_repo` (src/utils.py lines 76-93) as a function of the
create response: status `in [201, 422]` returns the repository URL, any
other status raises `Exception(f"Failed to create repo: {response.text}")`. -/
def create_github_repo (status : Nat) (respText username repoName : String) :
    Except String String :=
  if [201, 422].contains status then Except.ok (githubRepoUrl username repoName)
  else Except.error ("Failed to create repo: " ++ respText)

/-- The token-bearing remote URL used for clone and push:
`repo_url.replace("https://", f"https://{token}@")` (src/utils.py lines
13 and 127). -/
def urlWithToken (token username repoName : String) : String :=
  "https://" ++ token ++ "@github.com/" ++ username ++ "/" ++ repoName

/-- Python `str(subprocess.CalledProcessError(returncode, cmd))`:
`Command '<repr of cmd>' returned non-zero exit status <code>.` — the text a
caller sees when it prints a caught `CalledProcessError`. -/
def calledProcessErrorMsg (cmd : List String) (exitCode : Nat) : String :=
  "Command '" ++ pyListRepr cmd ++ "' returned non-zero exit status " ++
    toString exitCode ++ "."

/-- `clone_repo` (src/utils.py lines 9-14): runs
`git clone <url-with-token> <tempdir>` with `check=True`.  `gitExit` is the
subprocess outcome (`none` = exit 0); a non-zero exit raises
`CalledProcessError`, whose message embeds the full command — token-bearing
URL included. -/
def clone_repo (username repoName token tempdir : String) (gitExit : Option Nat) :
    Except String Unit :=
  match gitExit with
  | none => Except.ok ()
  | some code =>
      Except.error (calledProcessErrorMsg
        ["git", "clone", urlWithToken token username repoName, tempdir] code)

/-- `chr(10).join('- ' + c for c in checks)` — the bulleted rendering of the
check list used by both prompt builders (src/main.py lines 115 and 186). -/
def renderChecks (checks : List String) : String :=
  joinWith "\n" (checks.map (fun c => "- " ++ c))

/-- The round-1 generation prompt (src/main.py lines 182-191), chunk for
chunk, including the literal indentation of the triple-quoted f-strings;
the attachment-name list is interpolated through Python `str`. -/
def buildPrompt (brief : String) (checks : List String)
    (attachmentNames : List String) : String :=
  "You are an expert frontend developer. \n    Given these requirements:\n\n" ++
  brief ++ "\n\n" ++
  "The following checks will be performed by the evaluator: \n    " ++
  renderChecks checks ++ "\n\n" ++
  "You may be given file attachments, refer to them by the names below: " ++
  pyListRepr attachmentNames ++ "\n\n" ++
  "Please output a single complete HTML file with embedded CSS and JS as required. \n    The HTML output must pass all checks. Start your output directly with <!DOCTYPE html> (no code fences)."

/-- The round-2 revision prompt (src/main.py lines 104-117), chunk for
chunk. -/
def revisionPrompt (existingCode brief : String) (checks : List String) : String :=
  "You are updating a previously deployed static website. " ++
  "Below is the current code for the website (index.html):\n\n" ++
  "----- OLD CODE START -----\n" ++
  existingCode ++ "\n" ++
  "----- OLD CODE END -----\n\n" ++
  "Your new instructions are:\n" ++
  brief ++ "\n\n" ++
  "You must update the code to implement these new requirements " ++
  "while preserving all existing original features unless a change is requested. " ++
  "The following code checks will be used to automatically test your solution:\n" ++
  renderChecks checks ++ "\n\n" ++
  "Return ONLY the complete updated HTML file, starting with <!DOCTYPE html>."

/-- `p` occurs verbatim (character for character) inside `s`. -/
def strHas (p s : String) : Prop := p.data <:+: s.data

instance (p s : String) : Decidable (strHas p s) :=
  inferInstanceAs (Decidable (p.data <:+: s.data))

/-- One attachment of the request body, as in the `Attachment` pydantic
model (src/main.py lines 28-30). -/
structure Attachment where
  name : String
  url : String
deriving DecidableEq

/-- The request body, as in the `TaskRequest` pydantic model
(src/main.py lines 33-42); `process_task_background` receives it as
`request.dict()`. -/
structure TaskData where
  email : String
  secret : String
  task : String
  round : Int
  nonce : String
  brief : String
  checks : List String
  evaluation_url : String
  attachments : List Attachment
deriving DecidableEq

/-- The process-wide configuration read from the environment
(src/main.py lines 20-24). -/
structure Env where
  github_token : String
  github_username : String
  student_email : String
deriving DecidableEq

/-- The generation-provider response envelope as the pipeline reads it:
`raw` is its printed form, `content?` is
`response["choices"][0]["message"]["content"]` when the envelope has the
field (`none` models the `KeyError` raised by the extraction). -/
structure LlmResp where
  raw : String
  content? : Option String
deriving DecidableEq

/-- Outcomes of the external calls one run of the pipeline makes: the
temporary directory name, the fetch of the prior `index.html`, the
`call_aipipe` exchange, the `git clone` exit, the create-repository
response, the outcome of `push_to_github` (the `rev-parse HEAD` sha, or
the raised git error's message), the pages-activation response, and the
evaluator's responses to the notification attempts. -/
structure Oracle where
  tempdir : String
  fetchFile : Except String String
  aipipe : Except String LlmResp
  cloneExit : Option Nat
  createStatus : Nat
  createText : String
  pushResult : Except String String
  pagesStatus : Nat
  pagesText : String
  notifyResp : Nat → HttpResult

/-- A Python exception as the pipeline's `except Exception` arms see it:
a generic exception carrying its message, or the `UnboundLocalError`
raised by reading a local variable never assigned on the path taken. -/
inductive PyErr where
  | exc : String → PyErr
  | unboundLocal : String → PyErr
deriving DecidableEq

/-- The text a handler prints for the exception. -/
def PyErr.msg : PyErr → String
  | PyErr.exc s => s
  | PyErr.unboundLocal v =>
      "local variable '" ++ v ++ "' referenced before assignment"

/-- The externally-visible operations of one pipeline run, in invocation
order (recorded at the moment the call is made, whether or not it
succeeds).  `generate` carries the prompt handed to `call_aipipe`. -/
inductive Event where
  | fetch : Event
  | generate : String → Event
  | cloneRepo : Event
  | createRepo : Event
  | push : Event
  | pages : Bool → Event
  | notifyCall : Event
deriving DecidableEq

/-- What one run of `process_task_background` did: the printed lines, the
external operations in order, whether `notify_evaluator` was invoked (and
its result), and the exception leaving the function uncaught, if any. -/
structure RunResult where
  log : List String
  events : List Event
  notified : Option Bool
  uncaught : Option PyErr
deriving DecidableEq

/-- Result of one flow body, before the enclosing `except` handler runs:
log, events, notify outcome, and the exception reaching the handler. -/
structure FlowOut where
  log : List String
  events : List Event
  notified : Option Bool
  err : Option PyErr
deriving DecidableEq

/-- The pages URL `f"https://{username}.github.io/{repo_name}/"`. -/
def pagesUrlOf (username repoName : String) : String :=
  "https://" ++ username ++ ".github.io/" ++ repoName ++ "/"

/-- The notification payload dict (src/main.py lines 150-158 and 236-244). -/
structure Payload where
  email : String
  task : String
  round : Int
  nonce : String
  repo_url : String
  commit_sha : String
  pages_url : String
deriving DecidableEq

/-- Python `print(payload)`: `str` of the dict literal the source builds
(fields in insertion order). -/
def payloadRepr (p : Payload) : String :=
  "\x7b'email': " ++ pyStrRepr p.email ++ ", 'task': " ++ pyStrRepr p.task ++
  ", 'round': " ++ toString p.round ++ ", 'nonce': " ++ pyStrRepr p.nonce ++
  ", 'repo_url': " ++ pyStrRepr p.repo_url ++
  ", 'commit_sha': " ++ pyStrRepr p.commit_sha ++
  ", 'pages_url': " ++ pyStrRepr p.pages_url ++ "\x7d"

/-- The logging done inside `enable_github_pages` (src/utils.py lines
67-72): the announcement line, then the success or failure line. -/
def pagesLog (env : Env) (repoName : String) (status : Nat) (text : String) :
    List String :=
  ["🚀 Enabling GitHub Pages at https://api.github.com/repos/" ++
     env.github_username ++ "/" ++ repoName ++ "/pages"] ++
  (if enable_github_pages status then ["✅ GitHub Pages enabled or already active."]
   else ["❌ Failed to enable GitHub Pages: " ++ toString status ++ " " ++ text])

/-- Body of the round-2 branch of `process_task_background`
(src/main.py lines 88-169), up to but not including its `except` handler;
`err` is the exception reaching that handler, if any.  When
`enable_github_pages` returns `False`, the local `pages_url` is never
assigned (lines 142-147), so building the payload at line 157 raises
`UnboundLocalError` before `notify_evaluator` is reached. -/
def round2Body (env : Env) (o : Oracle) (t : TaskData) : FlowOut :=
  let log0 := ["🔁 Detected Round 2 (Revision) request!"]
  match o.fetchFile with
  | Except.error m => ⟨log0, [Event.fetch], none, some (PyErr.exc m)⟩
  | Except.ok existing_code =>
    let log1 := log0 ++ ["✅ Existing index.html fetched from GitHub repo."]
    let revision_prompt := revisionPrompt existing_code t.brief t.checks
    let log2 := log1 ++ ["📝 Revision prompt created, sending to LLM..."]
    match o.aipipe with
    | Except.error m =>
        ⟨log2, [Event.fetch, Event.generate revision_prompt], none,
         some (PyErr.exc m)⟩
    | Except.ok resp =>
      match resp.content? with
      | none =>
          ⟨log2, [Event.fetch, Event.generate revision_prompt], none,
           some (PyErr.exc (pyStrRepr "choices"))⟩
      | some _revised_html =>
        let log3 := log2 ++ ["✅ Received revised HTML from LLM."]
        match clone_repo env.github_username t.task env.github_token o.tempdir
            o.cloneExit with
        | Except.error m =>
            ⟨log3, [Event.fetch, Event.generate revision_prompt, Event.cloneRepo],
             none, some (PyErr.exc m)⟩
        | Except.ok _ =>
          let log4 := log3 ++
            ["✅ Revised index.html saved to " ++ o.tempdir ++ "/index.html"]
          match o.pushResult with
          | Except.error m =>
              ⟨log4, [Event.fetch, Event.generate revision_prompt,
                      Event.cloneRepo, Event.push], none, some (PyErr.exc m)⟩
          | Except.ok commit_sha =>
            let log5 := log4 ++ ["✅ Revision pushed. Commit SHA: " ++ commit_sha]
            let enabled := enable_github_pages o.pagesStatus
            let log5e := log5 ++ pagesLog env t.task o.pagesStatus o.pagesText
            let evs := [Event.fetch, Event.generate revision_prompt,
                        Event.cloneRepo, Event.push, Event.pages enabled]
            if enabled then
              let pages_url := pagesUrlOf env.github_username t.task
              let log6 := log5e ++
                ["🎉 Your revised app should soon be live at " ++ pages_url]
              let payload : Payload :=
                { email := t.email, task := t.task, round := t.round,
                  nonce := t.nonce,
                  repo_url := githubRepoUrl env.github_username t.task,
                  commit_sha := commit_sha, pages_url := pages_url }
              let log7 := log6 ++ ["📦 Notifying evaluator with payload:",
                                   payloadRepr payload,
                                   "📨 Sending to: " ++ t.evaluation_url]
              let success := (notifyRun o.notifyResp).2.1
              let log8 := log7 ++
                [if success then "🎯 Evaluation API notified successfully!"
                 else "❌ Failed to notify evaluator after retries."]
              ⟨log8, evs ++ [Event.notifyCall], some success, none⟩
            else
              let log6 := log5e ++
                ["❗Caution: Pages not enabled, check error above."]
              ⟨log6, evs, none, some (PyErr.unboundLocal "pages_url")⟩

/-- The round-2 branch with its `except` handler (src/main.py lines
170-172): every exception from the body is printed and swallowed. -/
def round2Run (env : Env) (o : Oracle) (t : TaskData) : RunResult :=
  let b := round2Body env o t
  match b.err with
  | some e =>
      ⟨b.log ++ ["❌ Round 2 revision error: " ++ e.msg], b.events,
       b.notified, none⟩
  | none => ⟨b.log, b.events, b.notified, none⟩

/-- The trimmed-output print (src/main.py lines 264-268):
`print("📝 LLM output (trimmed):", llm_message[:400], "..." if len(llm_message) > 400 else "")`. -/
def trimmedLine (msg : String) : String :=
  "📝 LLM output (trimmed): " ++ msg.take 400 ++ " " ++
  (if msg.length > 400 then "..." else "")

/-- The round-1 (else) branch of `process_task_background`
(src/main.py lines 174-270).  The `await call_aipipe(prompt)` at line 193
stands outside the `try`, so its exception leaves the function uncaught;
the outer `try` (line 195, handler line 269) covers envelope extraction
through repository creation, and the inner `try` (line 227, handler line
257) covers push, pages activation, payload building and notification.
As in round 2, a `False` from `enable_github_pages` leaves `pages_url`
unassigned and the payload build raises `UnboundLocalError`, here caught
by the inner handler. -/
def round1Run (env : Env) (o : Oracle) (t : TaskData) : RunResult :=
  let log0 := ["🆕 Detected Round 1 (Initial build) request!",
               "🔄 Processing task for: " ++ t.task]
  let prompt := buildPrompt t.brief t.checks (t.attachments.map Attachment.name)
  let log1 := log0 ++ ["🔎 Calling AI Pipe with full prompt to generate app code..."]
  match o.aipipe with
  | Except.error m =>
      ⟨log1, [Event.generate prompt], none, some (PyErr.exc m)⟩
  | Except.ok resp =>
    match resp.content? with
    | none =>
        ⟨log1 ++ ["LLM response parse error: " ++ pyStrRepr "choices" ++ " " ++
                  resp.raw],
         [Event.generate prompt], none, none⟩
    | some llm_message =>
      let log2 := log1 ++ ["✅ index.html saved to " ++ o.tempdir ++ "/index.html",
                           "✅ README.md saved", "✅ LICENSE saved",
                           "🚀 Creating GitHub repo: " ++ t.task]
      match create_github_repo o.createStatus o.createText env.github_username
          t.task with
      | Except.error m =>
          ⟨log2 ++ ["LLM response parse error: " ++ m ++ " " ++ resp.raw],
           [Event.generate prompt, Event.createRepo], none, none⟩
      | Except.ok repo_url =>
        let log3 := log2 ++ ["✅ Repo creation response: " ++ toString o.createStatus,
                             "✅ GitHub repo created at: " ++ repo_url,
                             "🚀 Pushing files to GitHub repo..."]
        match o.pushResult with
        | Except.error m =>
            ⟨log3 ++ ["❌ Git push error: " ++ m],
             [Event.generate prompt, Event.createRepo, Event.push], none, none⟩
        | Except.ok commit_sha =>
          let log4 := log3 ++ ["✅ Files pushed to repo. Commit SHA: " ++ commit_sha]
          let enabled := enable_github_pages o.pagesStatus
          let log4e := log4 ++ pagesLog env t.task o.pagesStatus o.pagesText
          let evs := [Event.generate prompt, Event.createRepo, Event.push,
                      Event.pages enabled]
          if enabled then
            let pages_url := pagesUrlOf env.github_username t.task
            let log5 := log4e ++ ["🎉 Your app should soon be live at " ++ pages_url]
            let payload : Payload :=
              { email := t.email, task := t.task, round := t.round,
                nonce := t.nonce, repo_url := repo_url,
                commit_sha := commit_sha, pages_url := pages_url }
            let log6 := log5 ++ ["📦 Notifying evaluator with payload:",
                                 payloadRepr payload,
                                 "📨 Sending to: " ++ t.evaluation_url]
            let success := (notifyRun o.notifyResp).2.1
            let log7 := log6 ++
              [if success then "🎯 Evaluation API notified successfully!"
               else "❌ Failed to notify evaluator after retries."]
            let log8 := log7 ++ ["🎉 SUCCESS: App deployed at " ++ repo_url,
                                 trimmedLine llm_message]
            ⟨log8, evs ++ [Event.notifyCall], some success, none⟩
          else
            let log5 := log4e ++ ["❗Caution: Pages not enabled, check error above."]
            ⟨log5 ++ ["❌ Git push error: " ++
                      (PyErr.unboundLocal "pages_url").msg],
             evs, none, none⟩

/-- `process_task_background` (src/main.py lines 81-270): the dispatch
`if round_number == 2:` selects the revision branch; every other round —
including 1, 0 and every round greater than 2 — takes the round-1 build
branch. -/
def process_task_background (env : Env) (o : Oracle) (t : TaskData) : RunResult :=
  if t.round == 2 then round2Run env o t else round1Run env o t

/-- Abstract git state for `push_to_github`'s git-level semantics:
`worktree` the files of the folder, `headSha`/`headTree` the id and tree of
`HEAD` (`none` before any commit exists), `nextSha` a fresh-commit-id
supply. -/
structure GitState where
  worktree : List (String × String)
  headSha : Option Nat
  headTree : List (String × String)
  nextSha : Nat
deriving DecidableEq

/-- After `git add .`, `git status --porcelain` prints nothing exactly when
`HEAD` exists and its tree already matches the working tree (with no
commits yet, any file at all shows as staged). -/
def statusClean (s : GitState) : Bool :=
  match s.headSha with
  | none => s.worktree.isEmpty
  | some _ => s.worktree == s.headTree

/-- The stage-and-conditionally-commit step of `push_to_github`
(src/utils.py lines 110-125): `git add .` then `git commit` only when
`git status --porcelain` printed something; otherwise the state is left
untouched ("No changes to commit; skipping git commit."). -/
def commitIfDirty (s : GitState) : GitState :=
  if statusClean s then s
  else { s with headSha := some s.nextSha, headTree := s.worktree,
                nextSha := s.nextSha + 1 }

/-- `push_to_github` (src/utils.py lines 96-154) at the git level: stage
everything, commit only if dirty, force-push, and return
`git rev-parse HEAD` — which fails when no commit exists at all. -/
def push_to_github (s : GitState) : Except String (Nat × GitState) :=
  match (commitIfDirty s).headSha with
  | some sha => Except.ok (sha, commitIfDirty s)
  | none => Except.error "fatal: ambiguous argument 'HEAD'"

/-- Only an HTTP 200 response passes `notify_evaluator`'s success test; any
other status and every transport error fail it. -/
theorem isSuccess_iff (r : HttpResult) :
    isSuccess r = true ↔ r = HttpResult.status 200 := by
  cases r with
  | status c => simp [isSuccess]
  | transportError m => simp [isSuccess]

/-- Arithmetic for shifting the notifier clock one attempt forward. -/
theorem powShift (k i t : Nat) :
    t + 2 ^ k + (2 ^ (k + 1 + i) - 2 ^ (k + 1)) =
      t + (2 ^ (k + (i + 1)) - 2 ^ k) := by
  have h3 : k + 1 + i = k + (i + 1) := by omega
  rw [h3]
  have h1 : 2 ^ (k + 1) ≤ 2 ^ (k + (i + 1)) :=
    Nat.pow_le_pow_right (by norm_num) (by omega)
  have h2 : 2 ^ (k + 1) = 2 * 2 ^ k := by rw [pow_succ]; ring
  omega

/-- Unfolding the retry loop at a passing attempt. -/
theorem notify_step_succ (resp : Nat → HttpResult) (k n t : Nat)
    (h : isSuccess (resp k) = true) :
    notify_evaluator resp k (n + 1) t = ([(k, t)], true, t) := by
  simp [notify_evaluator, h]

/-- Unfolding the retry loop at a failing attempt: record the post, sleep
`2 ^ k`, and continue. -/
theorem notify_step_fail (resp : Nat → HttpResult) (k n t : Nat)
    (h : isSuccess (resp k) = false) :
    notify_evaluator resp k (n + 1) t =
      ((k, t) :: (notify_evaluator resp (k + 1) n (t + 2 ^ k)).1,
       (notify_evaluator resp (k + 1) n (t + 2 ^ k)).2.1,
       (notify_evaluator resp (k + 1) n (t + 2 ^ k)).2.2) := by
  simp [notify_evaluator, h]

/-- The notifier makes at most `n` attempts in a window of `n` iterations. -/
theorem notify_length_le (resp : Nat → HttpResult) :
    ∀ n k t, (notify_evaluator resp k n t).1.length ≤ n := by
  intro n
  induction n with
  | zero => intro k t; simp [notify_evaluator]
  | succ n ih =>
    intro k t
    cases h : isSuccess (resp k) with
    | true => rw [notify_step_succ resp k n t h]; simp
    | false =>
      rw [notify_step_fail resp k n t h]
      have := ih (k + 1) (t + 2 ^ k)
      simpa using Nat.succ_le_succ this

/-- The notifier reports success exactly when some attempt in its window
passes the success test. -/
theorem notify_result_iff (resp : Nat → HttpResult) :
    ∀ n k t, ((notify_evaluator resp k n t).2.1 = true ↔
      ∃ j, j < n ∧ isSuccess (resp (k + j)) = true) := by
  intro n
  induction n with
  | zero => intro k t; simp [notify_evaluator]
  | succ n ih =>
    intro k t
    cases h : isSuccess (resp k) with
    | true =>
      rw [notify_step_succ resp k n t h]
      simp only [true_iff]
      exact ⟨0, by omega, by simpa using h⟩
    | false =>
      rw [notify_step_fail resp k n t h]
      show ((notify_evaluator resp (k + 1) n (t + 2 ^ k)).2.1 = true ↔ _)
      rw [ih (k + 1) (t + 2 ^ k)]
      constructor
      · rintro ⟨j, hj, hs⟩
        refine ⟨j + 1, by omega, ?_⟩
        rwa [show k + (j + 1) = k + 1 + j by omega]
      · rintro ⟨j, hj, hs⟩
        cases j with
        | zero =>
          rw [Nat.add_zero] at hs
          rw [hs] at h
          cases h
        | succ j =>
          refine ⟨j, by omega, ?_⟩
          rwa [show k + 1 + j = k + (j + 1) by omega]

/-- The attempt recorded at position `i` of the notifier's trace is attempt
`k + i`, posted at clock `t + (2 ^ (k + i) - 2 ^ k)` — so from a cold start
(`k = 0`, `t = 0`) attempt `i` is posted at time `2 ^ i - 1`, and the delay
between consecutive attempts `i` and `i + 1` is `2 ^ i`. -/
theorem notify_trace_get (resp : Nat → HttpResult) :
    ∀ n k t i p, ((notify_evaluator resp k n t).1).get? i = some p →
      p = (k + i, t + (2 ^ (k + i) - 2 ^ k)) := by
  intro n
  induction n with
  | zero => intro k t i p hp; simp [notify_evaluator] at hp
  | succ n ih =>
    intro k t i p hp
    cases h : isSuccess (resp k) with
    | true =>
      rw [notify_step_succ resp k n t h] at hp
      cases i with
      | zero => simp at hp; simp [hp]
      | succ i => simp at hp
    | false =>
      rw [notify_step_fail resp k n t h] at hp
      cases i with
      | zero => simp at hp; simp [hp]
      | succ i =>
        have hp2 : (notify_evaluator resp (k + 1) n (t + 2 ^ k)).1.get? i = some p := hp
        have := ih (k + 1) (t + 2 ^ k) i p hp2
        rw [this]
        simp only [Prod.mk.injEq]
        exact ⟨by omega, powShift k i t⟩

/-- When every attempt of the window fails, the notifier posts once per
iteration, sleeps after each post — the last one included — and returns
`false` at clock `t + (2 ^ (k + n) - 2 ^ k)`. -/
theorem notify_all_fail (resp : Nat → HttpResult) :
    ∀ n k t, (∀ j, j < n → isSuccess (resp (k + j)) = false) →
      notify_evaluator resp k n t =
        ((List.range n).map (fun i => (k + i, t + (2 ^ (k + i) - 2 ^ k))),
         false, t + (2 ^ (k + n) - 2 ^ k)) := by
  intro n
  induction n with
  | zero => intro k t _; simp [notify_evaluator]
  | succ n ih =>
    intro k t hfail
    have h0 : isSuccess (resp k) = false := by
      have := hfail 0 (by omega)
      rwa [Nat.add_zero] at this
    have hshift : ∀ j, j < n → isSuccess (resp (k + 1 + j)) = false := by
      intro j hj
      have := hfail (j + 1) (by omega)
      rwa [show k + (j + 1) = k + 1 + j by omega] at this
    have ihs := ih (k + 1) (t + 2 ^ k) hshift
    rw [notify_step_fail resp k n t h0, ihs]
    dsimp only
    have hlist : (k, t) :: List.map
        (fun i => (k + 1 + i, t + 2 ^ k + (2 ^ (k + 1 + i) - 2 ^ (k + 1))))
        (List.range n)
        = List.map (fun i => (k + i, t + (2 ^ (k + i) - 2 ^ k)))
            (List.range (n + 1)) := by
      rw [List.range_succ_eq_map, List.map_cons, List.map_map]
      refine congrArg₂ List.cons (by simp) ?_
      apply List.map_congr_left
      intro i _
      simp only [Function.comp_apply, Prod.mk.injEq]
      exact ⟨by omega, powShift k i t⟩
    rw [hlist, powShift k n t]

/-- When the first passing attempt of the window is attempt `k + j`, the
notifier posts exactly `j + 1` times and returns `true` at the clock value
of that last post: no sleep follows a success. -/
theorem notify_first_success (resp : Nat → HttpResult) :
    ∀ n k t j, j < n → isSuccess (resp (k + j)) = true →
      (∀ i, i < j → isSuccess (resp (k + i)) = false) →
      notify_evaluator resp k n t =
        ((List.range (j + 1)).map (fun i => (k + i, t + (2 ^ (k + i) - 2 ^ k))),
         true, t + (2 ^ (k + j) - 2 ^ k)) := by
  intro n
  induction n with
  | zero => intro k t j hj; omega
  | succ n ih =>
    intro k t j hj hsucc hfail
    cases j with
    | zero =>
      have h0 : isSuccess (resp k) = true := by
        rwa [Nat.add_zero] at hsucc
      rw [notify_step_succ resp k n t h0]
      have hr1 : List.range 1 = [0] := by decide
      rw [Nat.zero_add, hr1]
      simp
    | succ j =>
      have h0 : isSuccess (resp k) = false := by
        have := hfail 0 (by omega)
        rwa [Nat.add_zero] at this
      have hsucc2 : isSuccess (resp (k + 1 + j)) = true := by
        rwa [show k + (j + 1) = k + 1 + j by omega] at hsucc
      have hfail2 : ∀ i, i < j → isSuccess (resp (k + 1 + i)) = false := by
        intro i hi
        have := hfail (i + 1) (by omega)
        rwa [show k + (i + 1) = k + 1 + i by omega] at this
      have ihs := ih (k + 1) (t + 2 ^ k) j (by omega) hsucc2 hfail2
      rw [notify_step_fail resp k n t h0, ihs]
      dsimp only
      have hlist : (k, t) :: List.map
          (fun i => (k + 1 + i, t + 2 ^ k + (2 ^ (k + 1 + i) - 2 ^ (k + 1))))
          (List.range (j + 1))
          = List.map (fun i => (k + i, t + (2 ^ (k + i) - 2 ^ k)))
              (List.range (j + 1 + 1)) := by
        rw [show List.range (j + 1 + 1) = 0 :: List.map Nat.succ (List.range (j + 1))
              from List.range_succ_eq_map (j + 1),
            List.map_cons, List.map_map]
        refine congrArg₂ List.cons (by simp) ?_
        apply List.map_congr_left
        intro i _
        simp only [Function.comp_apply, Prod.mk.injEq]
        exact ⟨by omega, powShift k i t⟩
      rw [hlist, powShift k j t]

/-- Reflexivity of verbatim occurrence. -/
theorem strHas_refl (s : String) : strHas s s := List.infix_rfl

/-- Occurrence is transitive. -/
theorem strHas_trans {p q s : String} (h1 : strHas p q) (h2 : strHas q s) :
    strHas p s :=
  List.IsInfix.trans h1 h2

/-- A middle chunk of a three-part concatenation occurs in it. -/
theorem strHas_mid (p a b : String) : strHas p (a ++ p ++ b) := by
  unfold strHas
  rw [String.data_append, String.data_append]
  exact List.infix_append _ _ _

/-- A left chunk of a concatenation occurs in it. -/
theorem strHas_left (p a : String) : strHas p (p ++ a) := by
  unfold strHas
  rw [String.data_append]
  exact (List.prefix_append _ _).isInfix

/-- A right chunk of a concatenation occurs in it. -/
theorem strHas_right (p a : String) : strHas p (a ++ p) := by
  unfold strHas
  rw [String.data_append]
  exact (List.suffix_append _ _).isInfix

/-- Every element of a joined list occurs verbatim in the join. -/
theorem strHas_joinWith {x : String} (sep : String) :
    ∀ {l : List String}, x ∈ l → strHas x (joinWith sep l) := by
  intro l
  induction l with
  | nil => intro hx; cases hx
  | cons y ys ih =>
    intro hx
    cases ys with
    | nil =>
      rw [List.mem_singleton] at hx
      rw [hx]
      exact strHas_refl _
    | cons z zs =>
      rcases List.mem_cons.mp hx with rfl | hmem
      · show strHas x (x ++ sep ++ joinWith sep (z :: zs))
        exact strHas_trans (strHas_left x sep) (strHas_left _ _)
      · show strHas x (y ++ sep ++ joinWith sep (z :: zs))
        exact strHas_trans (ih hmem) (strHas_right _ _)

/-- Split a character list at every newline: the character-level view of
Python's `s.split("\n")`, used to state that the check list is rendered one
check per line. -/
def splitNL : List Char → List (List Char)
  | [] => [[]]
  | c :: cs =>
    if c = '\n' then [] :: splitNL cs
    else
      match splitNL cs with
      | [] => [[c]]
      | l :: ls => (c :: l) :: ls

/-- Splitting never yields an empty list of lines. -/
theorem splitNL_ne_nil : ∀ l : List Char, splitNL l ≠ [] := by
  intro l
  induction l with
  | nil => simp [splitNL]
  | cons c cs ih =>
    by_cases h : c = '\n'
    · simp [splitNL, h]
    · simp only [splitNL, h, if_false]
      cases hs : splitNL cs with
      | nil => simp
      | cons a as => simp

/-- A newline-free list is a single line. -/
theorem splitNL_no_newline : ∀ l : List Char, '\n' ∉ l → splitNL l = [l] := by
  intro l
  induction l with
  | nil => intro _; rfl
  | cons c cs ih =>
    intro h
    have hc : ¬ c = '\n' := fun hcc => h (by rw [hcc]; exact List.mem_cons_self _ _)
    have hcs : '\n' ∉ cs := fun hm => h (List.mem_cons_of_mem _ hm)
    simp only [splitNL, hc, if_false, ih hcs]

/-- Splitting a newline-free chunk glued by a newline onto a rest peels off
the chunk as one line. -/
theorem splitNL_append (l rest : List Char) (h : '\n' ∉ l) :
    splitNL (l ++ '\n' :: rest) = l :: splitNL rest := by
  induction l with
  | nil => simp [splitNL]
  | cons c cs ih =>
    have hc : ¬ c = '\n' := fun hcc => h (by rw [hcc]; exact List.mem_cons_self _ _)
    have hcs : '\n' ∉ cs := fun hm => h (List.mem_cons_of_mem _ hm)
    simp only [List.cons_append, splitNL, hc, if_false, List.append_eq, ih hcs]

/-- The source's `chr(10).join('- ' + c for c in checks)` renders the checks
as one line per check, each line `"- "` followed by the check verbatim, in
input order (for a non-empty list of newline-free checks). -/
theorem renderChecks_lines : ∀ checks : List String, checks ≠ [] →
    (∀ c ∈ checks, '\n' ∉ c.data) →
    splitNL (renderChecks checks).data =
      checks.map (fun c => ("- " ++ c).data) := by
  intro checks
  induction checks with
  | nil => intro h; cases h rfl
  | cons c cs ih =>
    intro _ hnl
    cases cs with
    | nil =>
      show splitNL (joinWith "\n" ["- " ++ c]).data = _
      have h1 : joinWith "\n" ["- " ++ c] = "- " ++ c := rfl
      rw [h1, List.map_singleton]
      apply splitNL_no_newline
      rw [String.data_append]
      intro hmem
      rcases List.mem_append.mp hmem with h2 | h2
      · exact absurd h2 (by decide)
      · exact hnl c (List.mem_cons_self _ _) h2
    | cons c2 cs2 =>
      show splitNL (("- " ++ c) ++ "\n" ++ renderChecks (c2 :: cs2)).data = _
      rw [String.data_append, String.data_append]
      have hdn : ("\n" : String).data = ['\n'] := rfl
      rw [hdn, List.append_assoc]
      have hnl1 : '\n' ∉ ("- " ++ c).data := by
        rw [String.data_append]
        intro hmem
        rcases List.mem_append.mp hmem with h2 | h2
        · exact absurd h2 (by decide)
        · exact hnl c (List.mem_cons_self _ _) h2
      rw [show (['\n'] ++ (renderChecks (c2 :: cs2)).data)
            = '\n' :: (renderChecks (c2 :: cs2)).data from rfl]
      rw [splitNL_append _ _ hnl1]
      rw [ih (by simp) (fun x hx => hnl x (List.mem_cons_of_mem _ hx))]
      rfl

/-- A response other than HTTP 200 fails the notifier's success test. -/
theorem isSuccess_eq_false {r : HttpResult} (h : r ≠ HttpResult.status 200) :
    isSuccess r = false := by
  cases hs : isSuccess r with
  | false => rfl
  | true => exact absurd ((isSuccess_iff r).mp hs) h

/-- C3: `notify_evaluator` makes at most 5 POST attempts; it returns `true`
exactly when one of the 5 attempts gets an HTTP 200 (any other status or a
transport error is a failed attempt that is retried, not escalated);
0-based attempt `i` is posted at abstract clock `2 ^ i - 1`, so the delays
incurred before attempts 1 through 5 are 0, 1, 2, 4, 8; when every attempt
fails it performs exactly 5 attempts and returns `false`; and when the
first 200 arrives on 0-based attempt `j` it returns `true` after exactly
`j + 1` attempts. -/
theorem notify_retry_contract (resp : Nat → HttpResult) :
    (notifyRun resp).1.length ≤ 5 ∧
    ((notifyRun resp).2.1 = true ↔ ∃ j, j < 5 ∧ resp j = HttpResult.status 200) ∧
    (∀ i p, ((notifyRun resp).1).get? i = some p → p = (i, 2 ^ i - 1)) ∧
    ((∀ j, j < 5 → resp j ≠ HttpResult.status 200) →
      (notifyRun resp).2.1 = false ∧ (notifyRun resp).1.length = 5) ∧
    (∀ j, j < 5 → resp j = HttpResult.status 200 →
      (∀ i, i < j → resp i ≠ HttpResult.status 200) →
      (notifyRun resp).2.1 = true ∧ (notifyRun resp).1.length = j + 1) := by
  refine ⟨notify_length_le resp 5 0 0, ?_, ?_, ?_, ?_⟩
  · rw [notifyRun, notify_result_iff resp 5 0 0]
    constructor
    · rintro ⟨j, hj, hs⟩
      rw [Nat.zero_add] at hs
      exact ⟨j, hj, (isSuccess_iff _).mp hs⟩
    · rintro ⟨j, hj, hs⟩
      refine ⟨j, hj, ?_⟩
      rw [Nat.zero_add]
      exact (isSuccess_iff _).mpr hs
  · intro i p hp
    have := notify_trace_get resp 5 0 0 i p hp
    simpa using this
  · intro hfail
    have hf : ∀ j, j < 5 → isSuccess (resp (0 + j)) = false := by
      intro j hj
      rw [Nat.zero_add]
      exact isSuccess_eq_false (hfail j hj)
    rw [notifyRun, notify_all_fail resp 5 0 0 hf]
    simp
  · intro j hj hsucc hfail
    have hs : isSuccess (resp (0 + j)) = true := by
      rw [Nat.zero_add]
      exact (isSuccess_iff _).mpr hsucc
    have hf : ∀ i, i < j → isSuccess (resp (0 + i)) = false := by
      intro i hi
      rw [Nat.zero_add]
      exact isSuccess_eq_false (hfail i hi)
    rw [notifyRun, notify_first_success resp 5 0 0 j hj hs hf]
    simp

/-- Witness for C3 at a responder returning 200 on the 3rd attempt
(0-based attempt 2): `true` after exactly 3 attempts. -/
theorem notify_retry_contract_witness :
    (notifyRun (fun k => if k == 2 then HttpResult.status 200
        else HttpResult.status 500)).2.1 = true ∧
    (notifyRun (fun k => if k == 2 then HttpResult.status 200
        else HttpResult.status 500)).1.length = 2 + 1 :=
  (notify_retry_contract
      (fun k => if k == 2 then HttpResult.status 200
        else HttpResult.status 500)).2.2.2.2
    2 (by decide) (by decide) (by decide)

/-- C10: after every failed attempt `k` (k = 0..4) the notifier sleeps
`2 ^ k` — the fifth and last failure included: with every attempt failing,
the POSTs happen at clocks 0, 1, 3, 7, 15 and the function returns `false`
only at clock 31, a trailing 16-unit delay after the last POST and 31 units
of total delay; a run whose final attempt succeeds returns `true` at the
clock of that last POST, with no trailing delay. -/
theorem notify_trailing_backoff (resp : Nat → HttpResult) :
    ((∀ j, j < 5 → resp j ≠ HttpResult.status 200) →
      notifyRun resp = ([(0, 0), (1, 1), (2, 3), (3, 7), (4, 15)], false, 31)) ∧
    (∀ j, j < 5 → resp j = HttpResult.status 200 →
      (∀ i, i < j → resp i ≠ HttpResult.status 200) →
      (notifyRun resp).2.2 = 2 ^ j - 1 ∧
      (notifyRun resp).1.getLast? = some (j, 2 ^ j - 1)) := by
  constructor
  · intro hfail
    have hf : ∀ j, j < 5 → isSuccess (resp (0 + j)) = false := by
      intro j hj
      rw [Nat.zero_add]
      exact isSuccess_eq_false (hfail j hj)
    rw [notifyRun, notify_all_fail resp 5 0 0 hf]
    decide
  · intro j hj hsucc hfail
    have hs : isSuccess (resp (0 + j)) = true := by
      rw [Nat.zero_add]
      exact (isSuccess_iff _).mpr hsucc
    have hf : ∀ i, i < j → isSuccess (resp (0 + i)) = false := by
      intro i hi
      rw [Nat.zero_add]
      exact isSuccess_eq_false (hfail i hi)
    rw [notifyRun, notify_first_success resp 5 0 0 j hj hs hf]
    constructor
    · simp
    · rw [List.range_succ, List.map_append, List.map_cons, List.map_nil,
          List.getLast?_concat]
      simp

/-- Witness for C10 at the always-500 responder: five failed attempts at
clocks 0, 1, 3, 7, 15 and a `false` return at clock 31. -/
theorem notify_trailing_backoff_witness :
    notifyRun (fun _ => HttpResult.status 500) =
      ([(0, 0), (1, 1), (2, 3), (3, 7), (4, 15)], false, 31) :=
  (notify_trailing_backoff (fun _ => HttpResult.status 500)).1 (by decide)

/-- C8: `create_github_repo` treats 201 (created) and 422 (already exists)
alike as success, returning the repository URL without raising; any other
status raises instead of returning. -/
theorem create_repo_idempotent (status : Nat) (respText username repoName : String) :
    ((status = 201 ∨ status = 422) →
      create_github_repo status respText username repoName =
        Except.ok (githubRepoUrl username repoName)) ∧
    (status ≠ 201 → status ≠ 422 →
      create_github_repo status respText username repoName =
        Except.error ("Failed to create repo: " ++ respText)) := by
  constructor
  · rintro (rfl | rfl) <;> rfl
  · intro h1 h2
    have hcond : ([201, 422].contains status) = false := by
      simp [List.contains]
      exact ⟨h1, h2⟩
    unfold create_github_repo
    rw [hcond]
    simp

/-- Witness for C8: a 422 "already exists" response yields the repository
URL as success. -/
theorem create_repo_idempotent_witness :
    create_github_repo 422 "name already exists" "alice" "task-repo-1" =
      Except.ok (githubRepoUrl "alice" "task-repo-1") :=
  (create_repo_idempotent 422 "name already exists" "alice" "task-repo-1").1
    (Or.inr rfl)

/-- C6: `push_to_github` commits only when the porcelain status shows
staged changes (a clean state is pushed unchanged, with no new commit
id consumed, and a dirty one gets exactly one new commit), so a successful
publish immediately re-run on its unchanged workspace is a no-op returning
the identical commit id and state. -/
theorem publish_idempotent (s : GitState) (sha : Nat) (s1 : GitState)
    (h : push_to_github s = Except.ok (sha, s1)) :
    push_to_github s1 = Except.ok (sha, s1) ∧
    (statusClean s = true → s1 = s) ∧
    (statusClean s = false →
      s1.headSha = some s.nextSha ∧ s1.nextSha = s.nextSha + 1) := by
  by_cases hc : statusClean s
  · have hcd : commitIfDirty s = s := by
      unfold commitIfDirty
      rw [if_pos hc]
    unfold push_to_github at h
    rw [hcd] at h
    cases hh : s.headSha with
    | none => rw [hh] at h; cases h
    | some sha0 =>
      rw [hh] at h
      rw [Except.ok.injEq, Prod.mk.injEq] at h
      obtain ⟨rfl, rfl⟩ := h
      refine ⟨?_, fun _ => rfl, fun hcf => absurd hc (by rw [hcf]; simp)⟩
      unfold push_to_github
      rw [hcd, hh]
  · have hcf : statusClean s = false := by
      cases hcc : statusClean s
      · rfl
      · exact absurd hcc hc
    have hcd : commitIfDirty s =
        { s with headSha := some s.nextSha, headTree := s.worktree,
                 nextSha := s.nextSha + 1 } := by
      unfold commitIfDirty
      rw [if_neg hc]
    unfold push_to_github at h
    rw [hcd] at h
    rw [Except.ok.injEq, Prod.mk.injEq] at h
    obtain ⟨rfl, rfl⟩ := h
    refine ⟨?_, fun hct => absurd hct (by rw [hcf]; simp),
            fun _ => ⟨rfl, rfl⟩⟩
    unfold push_to_github
    have hclean2 : statusClean
        { s with headSha := some s.nextSha, headTree := s.worktree,
                 nextSha := s.nextSha + 1 } = true := by
      simp [statusClean]
    have hcd2 : commitIfDirty
        { s with headSha := some s.nextSha, headTree := s.worktree,
                 nextSha := s.nextSha + 1 } =
        { s with headSha := some s.nextSha, headTree := s.worktree,
                 nextSha := s.nextSha + 1 } := by
      unfold commitIfDirty
      rw [hclean2]
      simp
    rw [hcd2]

/-- Witness for C6: the first publish of a one-file workspace commits it;
re-publishing the unchanged workspace returns the same commit id 0 and the
same state. -/
theorem publish_idempotent_witness :
    push_to_github
        ⟨[("index.html", "x")], some 0, [("index.html", "x")], 1⟩ =
      Except.ok (0, ⟨[("index.html", "x")], some 0, [("index.html", "x")], 1⟩) :=
  (publish_idempotent ⟨[("index.html", "x")], none, [], 0⟩ 0
      ⟨[("index.html", "x")], some 0, [("index.html", "x")], 1⟩ rfl).1

/-- Occurrence survives appending on the right. -/
theorem strHas_ext_right {p s : String} (b : String) (h : strHas p s) :
    strHas p (s ++ b) :=
  strHas_trans h (strHas_left s b)

/-- Occurrence survives appending on the left. -/
theorem strHas_ext_left {p s : String} (a : String) (h : strHas p s) :
    strHas p (a ++ s) :=
  strHas_trans h (strHas_right s a)

/-- The content the revision flow fetched (`""` when the fetch failed):
a trace-description helper, not part of the embedded code. -/
def fetchedContent (o : Oracle) : String :=
  match o.fetchFile with
  | Except.ok c => c
  | Except.error _ => ""

/-- Concrete environment for the concrete-run theorems. -/
def envA : Env := ⟨"ghp_SECRET_TOKEN_123", "alice", "alice@example.com"⟩

/-- Concrete round-1 task for the concrete-run theorems. -/
def taskA : TaskData :=
  ⟨"student@example.com", "s3cret", "task-repo-1", 1, "nonce-1",
   "Build a counter app", ["counter increments on click"],
   "https://eval.example.com/notify",
   [⟨"data.csv", "https://files.example.com/data.csv"⟩]⟩

/-- Concrete happy-path oracle for the concrete-run theorems. -/
def oracleA : Oracle :=
  ⟨"/tmp/work", Except.ok "<!DOCTYPE html><p>old</p>",
   Except.ok ⟨"envelope-text", some "<!DOCTYPE html><p>new</p>"⟩,
   none, 201, "", Except.ok "abc123", 201, "",
   fun _ => HttpResult.status 200⟩

/-- Every build-flow run opens with the round-1 banner, leaves nothing
uncaught once the generation call returned, and performs a prefix of the
canonical operation order generate → create → push → pages → notify; it
never fetches. -/
theorem round1Run_shape (env : Env) (o : Oracle) (t : TaskData) :
    (round1Run env o t).log.head? =
      some "🆕 Detected Round 1 (Initial build) request!" ∧
    (round1Run env o t).events <+:
      [Event.generate (buildPrompt t.brief t.checks
         (t.attachments.map Attachment.name)),
       Event.createRepo, Event.push,
       Event.pages (enable_github_pages o.pagesStatus), Event.notifyCall] := by
  unfold round1Run
  cases ha : o.aipipe with
  | error m => exact ⟨rfl, ⟨_, rfl⟩⟩
  | ok resp =>
    dsimp only
    cases hc : resp.content? with
    | none => exact ⟨rfl, ⟨_, rfl⟩⟩
    | some msg =>
      dsimp only
      cases hcr : create_github_repo o.createStatus o.createText
          env.github_username t.task with
      | error m => exact ⟨rfl, ⟨_, rfl⟩⟩
      | ok repo_url =>
        dsimp only
        cases hp : o.pushResult with
        | error m => exact ⟨rfl, ⟨_, rfl⟩⟩
        | ok sha =>
          dsimp only
          cases he : enable_github_pages o.pagesStatus with
          | false => exact ⟨rfl, ⟨[Event.notifyCall], rfl⟩⟩
          | true => exact ⟨rfl, ⟨[], List.append_nil _⟩⟩

/-- Every revision-flow run opens with the round-2 banner, swallows every
exception, fetches first, and performs a prefix of the canonical operation
order fetch → generate → clone → push → pages → notify, the generation
prompt being the revision prompt built from the fetched document. -/
theorem round2Run_shape (env : Env) (o : Oracle) (t : TaskData) :
    (round2Run env o t).log.head? =
      some "🔁 Detected Round 2 (Revision) request!" ∧
    (round2Run env o t).events.head? = some Event.fetch ∧
    (round2Run env o t).uncaught = none ∧
    (round2Run env o t).events <+:
      [Event.fetch,
       Event.generate (revisionPrompt (fetchedContent o) t.brief t.checks),
       Event.cloneRepo, Event.push,
       Event.pages (enable_github_pages o.pagesStatus), Event.notifyCall] := by
  unfold round2Run round2Body fetchedContent
  cases hf : o.fetchFile with
  | error m => exact ⟨rfl, rfl, rfl, ⟨_, rfl⟩⟩
  | ok c =>
    dsimp only
    cases ha : o.aipipe with
    | error m => exact ⟨rfl, rfl, rfl, ⟨_, rfl⟩⟩
    | ok resp =>
      dsimp only
      cases hc : resp.content? with
      | none => exact ⟨rfl, rfl, rfl, ⟨_, rfl⟩⟩
      | some msg =>
        dsimp only
        cases hcl : clone_repo env.github_username t.task env.github_token
            o.tempdir o.cloneExit with
        | error e => exact ⟨rfl, rfl, rfl, ⟨_, rfl⟩⟩
        | ok u =>
          dsimp only
          cases hp : o.pushResult with
          | error m => exact ⟨rfl, rfl, rfl, ⟨_, rfl⟩⟩
          | ok sha =>
            dsimp only
            cases he : enable_github_pages o.pagesStatus with
            | false => exact ⟨rfl, rfl, rfl, ⟨[Event.notifyCall], rfl⟩⟩
            | true => exact ⟨rfl, rfl, rfl, ⟨[], List.append_nil _⟩⟩

/-- The build flow never fetches a prior document. -/
theorem round1Run_no_fetch (env : Env) (o : Oracle) (t : TaskData) :
    Event.fetch ∉ (round1Run env o t).events := by
  intro hmem
  have hpre := (round1Run_shape env o t).2
  have hx := hpre.subset hmem
  simp at hx

/-- C1 claims every round ≥ 2 takes the revision flow; the code dispatches
on `round == 2` only, so a round-3 task falls into the round-1 build
branch: its run opens with the round-1 banner and never fetches a prior
document. -/
theorem dispatch_round3_cex :
    (process_task_background envA oracleA { taskA with round := 3 }).log.head? =
      some "🆕 Detected Round 1 (Initial build) request!" ∧
    Event.fetch ∉
      (process_task_background envA oracleA { taskA with round := 3 }).events := by
  constructor
  · rfl
  · exact round1Run_no_fetch envA oracleA { taskA with round := 3 }

/-- C1 amended: the dispatch selects the revision flow exactly when the
round equals 2 — such a run opens with the revision banner and its first
operation is the prior-document fetch — while every other round (1, and
also 0 and every round greater than 2) takes the build flow, whose run
opens with the round-1 banner and performs no fetch at all. -/
theorem dispatch_amended (env : Env) (o : Oracle) (t : TaskData) :
    (t.round = 2 →
      (process_task_background env o t).log.head? =
        some "🔁 Detected Round 2 (Revision) request!" ∧
      (process_task_background env o t).events.head? = some Event.fetch) ∧
    (t.round ≠ 2 →
      (process_task_background env o t).log.head? =
        some "🆕 Detected Round 1 (Initial build) request!" ∧
      Event.fetch ∉ (process_task_background env o t).events) := by
  constructor
  · intro h
    have hd : process_task_background env o t = round2Run env o t := by
      unfold process_task_background
      rw [h]
      rfl
    rw [hd]
    exact ⟨(round2Run_shape env o t).1, (round2Run_shape env o t).2.1⟩
  · intro h
    have hb : (t.round == 2) = false := beq_eq_false_iff_ne.mpr h
    have hd : process_task_background env o t = round1Run env o t := by
      unfold process_task_background
      rw [hb]
      rfl
    rw [hd]
    exact ⟨(round1Run_shape env o t).1, round1Run_no_fetch env o t⟩

/-- Witness for C1 amended: a concrete round-2 task takes the revision
flow, a concrete round-3 task falls into the build flow. -/
theorem dispatch_amended_witness :
    ((process_task_background envA oracleA { taskA with round := 2 }).log.head? =
      some "🔁 Detected Round 2 (Revision) request!" ∧
     (process_task_background envA oracleA { taskA with round := 2 }).events.head? =
      some Event.fetch) ∧
    (process_task_background envA oracleA taskA).log.head? =
      some "🆕 Detected Round 1 (Initial build) request!" :=
  ⟨(dispatch_amended envA oracleA { taskA with round := 2 }).1 rfl,
   ((dispatch_amended envA oracleA taskA).2 (by decide)).1⟩

/-- C2's first half holds of the code: `enable_github_pages` returns true
exactly on 201, 204 and 409.  Its second half fails: at a round-1 run
whose publish succeeded and whose pages-activation response is 403,
`enable_github_pages` returns false, the local `pages_url` is never
assigned, building the payload raises `UnboundLocalError` — caught by the
inner handler as a "Git push error" — and the evaluator is never
notified. -/
theorem pages_failure_blocks_notification_bug :
    (∀ s : Nat, enable_github_pages s = true ↔ (s = 201 ∨ s = 204 ∨ s = 409)) ∧
    enable_github_pages 403 = false ∧
    Event.push ∈ (process_task_background envA
        { oracleA with pagesStatus := 403 } taskA).events ∧
    (process_task_background envA
        { oracleA with pagesStatus := 403 } taskA).notified = none ∧
    (process_task_background envA
        { oracleA with pagesStatus := 403 } taskA).uncaught = none ∧
    ("❌ Git push error: local variable 'pages_url' referenced before assignment")
      ∈ (process_task_background envA
          { oracleA with pagesStatus := 403 } taskA).log := by
  refine ⟨?_, by decide, by decide, by decide, by decide, by decide⟩
  intro s
  simp [enable_github_pages, List.contains]

set_option maxRecDepth 100000 in
/-- C9 claims the bearer credential never appears in any logged line; on
the code a failing `git clone` raises `CalledProcessError`, whose message
embeds the token-bearing clone URL, and the round-2 handler prints that
message: at this concrete run a logged line contains the token verbatim. -/
theorem clone_failure_token_leak_bug :
    ∃ line ∈ (process_task_background envA
        { oracleA with cloneExit := some 128 } { taskA with round := 2 }).log,
      strHas envA.github_token line := by
  decide

/-- C5: every revision-flow run fetches the prior document first, generates
second and can publish only after generation (its events are a prefix of
the canonical order fetch → generate → clone → push → pages → notify, the
generation event carrying the revision prompt built from the fetched
document), and that prompt embeds the fetched prior document verbatim
together with the new brief verbatim and every new check verbatim. -/
theorem revision_order_verbatim (env : Env) (o : Oracle) (t : TaskData)
    (h2 : t.round = 2) :
    (process_task_background env o t).events <+:
      [Event.fetch,
       Event.generate (revisionPrompt (fetchedContent o) t.brief t.checks),
       Event.cloneRepo, Event.push,
       Event.pages (enable_github_pages o.pagesStatus), Event.notifyCall] ∧
    (∀ c, o.fetchFile = Except.ok c →
      strHas c (revisionPrompt c t.brief t.checks) ∧
      strHas t.brief (revisionPrompt c t.brief t.checks) ∧
      ∀ ch ∈ t.checks, strHas ch (revisionPrompt c t.brief t.checks)) := by
  constructor
  · have hd : process_task_background env o t = round2Run env o t := by
      unfold process_task_background
      rw [h2]
      rfl
    rw [hd]
    exact (round2Run_shape env o t).2.2.2
  · intro c _
    refine ⟨?_, ?_, ?_⟩
    · unfold revisionPrompt
      repeat first
        | exact strHas_right c _
        | apply strHas_ext_right
    · unfold revisionPrompt
      repeat first
        | exact strHas_right t.brief _
        | apply strHas_ext_right
    · intro ch hch
      have hrc : strHas ch (renderChecks t.checks) :=
        strHas_trans (strHas_right ch "- ")
          (strHas_joinWith "\n" (List.mem_map_of_mem _ hch))
      unfold revisionPrompt
      repeat first
        | exact strHas_ext_left _ hrc
        | apply strHas_ext_right

/-- Witness for C5 at a concrete round-2 run: the event-order prefix and
the fetched document occurring verbatim in the revision prompt. -/
theorem revision_order_verbatim_witness :
    ((process_task_background envA oracleA { taskA with round := 2 }).events <+:
      [Event.fetch,
       Event.generate (revisionPrompt (fetchedContent oracleA)
         taskA.brief taskA.checks),
       Event.cloneRepo, Event.push,
       Event.pages (enable_github_pages oracleA.pagesStatus),
       Event.notifyCall]) ∧
    strHas "<!DOCTYPE html><p>old</p>"
      (revisionPrompt "<!DOCTYPE html><p>old</p>" taskA.brief taskA.checks) :=
  ⟨(revision_order_verbatim envA oracleA { taskA with round := 2 } rfl).1,
   ((revision_order_verbatim envA oracleA { taskA with round := 2 } rfl).2
      "<!DOCTYPE html><p>old</p>" rfl).1⟩

set_option maxRecDepth 100000 in
/-- C7: the round-1 generation prompt embeds the brief verbatim; every
check appears verbatim in it as a "- "-bulleted entry, and the bulleted
block renders one line per check in input order; the attachments
contribute only their names (tasks with equal attachment-name lists get
the identical prompt, whatever the URLs or contents behind them); and the
prompt instructs a single complete HTML document starting directly with
the literal <!DOCTYPE html> token and no code fences. -/
theorem round1_prompt_contract (brief : String) (checks : List String)
    (atts : List Attachment) :
    strHas brief (buildPrompt brief checks (atts.map Attachment.name)) ∧
    (∀ c ∈ checks,
      strHas ("- " ++ c) (buildPrompt brief checks (atts.map Attachment.name))) ∧
    (checks ≠ [] → (∀ c ∈ checks, '\n' ∉ c.data) →
      splitNL (renderChecks checks).data =
        checks.map (fun c => ("- " ++ c).data)) ∧
    (∀ atts2 : List Attachment,
      atts.map Attachment.name = atts2.map Attachment.name →
      buildPrompt brief checks (atts.map Attachment.name) =
        buildPrompt brief checks (atts2.map Attachment.name)) ∧
    strHas "Please output a single complete HTML file with embedded CSS and JS"
      (buildPrompt brief checks (atts.map Attachment.name)) ∧
    strHas "Start your output directly with <!DOCTYPE html> (no code fences)."
      (buildPrompt brief checks (atts.map Attachment.name)) := by
  refine ⟨?_, ?_, renderChecks_lines checks, ?_, ?_, ?_⟩
  · unfold buildPrompt
    repeat first
      | exact strHas_right brief _
      | apply strHas_ext_right
  · intro c hc
    have hrc : strHas ("- " ++ c) (renderChecks checks) :=
      strHas_joinWith "\n" (List.mem_map_of_mem _ hc)
    unfold buildPrompt
    repeat first
      | exact strHas_ext_left _ hrc
      | apply strHas_ext_right
  · intro atts2 hn
    rw [hn]
  · unfold buildPrompt
    repeat first
      | exact strHas_ext_left _ (by decide)
      | apply strHas_ext_right
  · unfold buildPrompt
    repeat first
      | exact strHas_ext_left _ (by decide)
      | apply strHas_ext_right

/-- Witness for C7 at the concrete brief and check of the spec's testable
property, with one named attachment. -/
theorem round1_prompt_contract_witness :
    strHas "Build a counter app"
      (buildPrompt "Build a counter app" ["counter increments on click"]
        ([(⟨"data.csv", "https://files.example.com/data.csv"⟩ : Attachment)].map
          Attachment.name)) ∧
    splitNL (renderChecks ["counter increments on click"]).data =
      ["counter increments on click"].map (fun c => ("- " ++ c).data) :=
  ⟨(round1_prompt_contract "Build a counter app" ["counter increments on click"]
      [⟨"data.csv", "https://files.example.com/data.csv"⟩]).1,
   (round1_prompt_contract "Build a counter app" ["counter increments on click"]
      [⟨"data.csv", "https://files.example.com/data.csv"⟩]).2.2.1
     (by decide) (by decide)⟩

/-- C4 claims no exception ever escapes the background pipeline and every
generation failure is recorded; at a round-1 run whose generation call
raises, the exception leaves `process_task_background` uncaught — the call
stands outside the `try` — and no notification happens for the attempt. -/
theorem round1_generation_error_cex :
    (process_task_background envA
        { oracleA with aipipe := Except.error "connection refused" }
        taskA).uncaught = some (PyErr.exc "connection refused") ∧
    (process_task_background envA
        { oracleA with aipipe := Except.error "connection refused" }
        taskA).notified = none := by
  constructor <;> rfl

/-- C4 amended: every failure of the revision flow (prior-document fetch,
generation call, envelope extraction, clone, publish) and every failure of
the build flow past its generation call (envelope extraction, repository
creation, publish) is terminal for the attempt — no notification, no
escaping exception, and the error's message printed; the exception of the
round-1 generation call itself, however, escapes the background pipeline
uncaught and unlogged, because that call stands outside the `try`. -/
theorem background_error_handling_amended (env : Env) (o : Oracle) (t : TaskData) :
    (t.round = 2 → (process_task_background env o t).uncaught = none) ∧
    (t.round ≠ 2 → ∀ r, o.aipipe = Except.ok r →
      (process_task_background env o t).uncaught = none) ∧
    (t.round ≠ 2 → ∀ m, o.aipipe = Except.error m →
      (process_task_background env o t).uncaught = some (PyErr.exc m) ∧
      (process_task_background env o t).notified = none) ∧
    (t.round = 2 → ∀ m, o.fetchFile = Except.error m →
      (process_task_background env o t).notified = none ∧
      ∃ line ∈ (process_task_background env o t).log, strHas m line) ∧
    (t.round = 2 → ∀ c m, o.fetchFile = Except.ok c →
      o.aipipe = Except.error m →
      (process_task_background env o t).notified = none ∧
      ∃ line ∈ (process_task_background env o t).log, strHas m line) ∧
    (t.round = 2 → ∀ c r, o.fetchFile = Except.ok c →
      o.aipipe = Except.ok r → r.content? = none →
      (process_task_background env o t).notified = none ∧
      ∃ line ∈ (process_task_background env o t).log,
        strHas (pyStrRepr "choices") line) ∧
    (t.round = 2 → ∀ c r h code, o.fetchFile = Except.ok c →
      o.aipipe = Except.ok r → r.content? = some h → o.cloneExit = some code →
      (process_task_background env o t).notified = none ∧
      ∃ line ∈ (process_task_background env o t).log,
        strHas (calledProcessErrorMsg
          ["git", "clone",
           urlWithToken env.github_token env.github_username t.task,
           o.tempdir] code) line) ∧
    (t.round = 2 → ∀ c r h m, o.fetchFile = Except.ok c →
      o.aipipe = Except.ok r → r.content? = some h → o.cloneExit = none →
      o.pushResult = Except.error m →
      (process_task_background env o t).notified = none ∧
      ∃ line ∈ (process_task_background env o t).log, strHas m line) ∧
    (t.round ≠ 2 → ∀ r, o.aipipe = Except.ok r → r.content? = none →
      (process_task_background env o t).notified = none ∧
      ∃ line ∈ (process_task_background env o t).log,
        strHas "LLM response parse error" line) ∧
    (t.round ≠ 2 → ∀ r h m, o.aipipe = Except.ok r → r.content? = some h →
      create_github_repo o.createStatus o.createText env.github_username t.task
        = Except.error m →
      (process_task_background env o t).notified = none ∧
      ∃ line ∈ (process_task_background env o t).log, strHas m line) ∧
    (t.round ≠ 2 → ∀ r h u m, o.aipipe = Except.ok r → r.content? = some h →
      create_github_repo o.createStatus o.createText env.github_username t.task
        = Except.ok u →
      o.pushResult = Except.error m →
      (process_task_background env o t).notified = none ∧
      ∃ line ∈ (process_task_background env o t).log, strHas m line) := by
  have hd2 : t.round = 2 → process_task_background env o t = round2Run env o t := by
    intro h
    unfold process_task_background
    rw [h]
    rfl
  have hd1 : t.round ≠ 2 → process_task_background env o t = round1Run env o t := by
    intro h
    unfold process_task_background
    rw [beq_eq_false_iff_ne.mpr h]
    rfl
  refine ⟨?_, ?_, ?_, ?_, ?_, ?_, ?_, ?_, ?_, ?_, ?_⟩
  · intro h
    rw [hd2 h]
    exact (round2Run_shape env o t).2.2.1
  · intro h r ha
    rw [hd1 h]
    unfold round1Run
    rw [ha]
    dsimp only
    cases hc : r.content? with
    | none => rfl
    | some msg =>
      dsimp only
      cases hcr : create_github_repo o.createStatus o.createText
          env.github_username t.task with
      | error m => rfl
      | ok repo_url =>
        dsimp only
        cases hp : o.pushResult with
        | error m => rfl
        | ok sha =>
          dsimp only
          cases he : enable_github_pages o.pagesStatus with
          | false => rfl
          | true => rfl
  · intro h m ha
    rw [hd1 h]
    unfold round1Run
    rw [ha]
    exact ⟨rfl, rfl⟩
  · intro h m hf
    rw [hd2 h]
    unfold round2Run round2Body
    rw [hf]
    dsimp only [PyErr.msg]
    refine ⟨rfl, ⟨"❌ Round 2 revision error: " ++ m, by simp, strHas_right m _⟩⟩
  · intro h c m hf ha
    rw [hd2 h]
    unfold round2Run round2Body
    rw [hf]
    dsimp only
    rw [ha]
    dsimp only [PyErr.msg]
    refine ⟨rfl, ⟨"❌ Round 2 revision error: " ++ m, by simp, strHas_right m _⟩⟩
  · intro h c r hf ha hc
    rw [hd2 h]
    unfold round2Run round2Body
    rw [hf]
    dsimp only
    rw [ha]
    dsimp only
    rw [hc]
    dsimp only [PyErr.msg]
    refine ⟨rfl, ⟨"❌ Round 2 revision error: " ++ pyStrRepr "choices",
      by simp, strHas_right _ _⟩⟩
  · intro h c r hx code hf ha hc hcl
    rw [hd2 h]
    unfold round2Run round2Body
    rw [hf]
    dsimp only
    rw [ha]
    dsimp only
    rw [hc]
    dsimp only
    rw [show clone_repo env.github_username t.task env.github_token o.tempdir
          o.cloneExit = Except.error (calledProcessErrorMsg
            ["git", "clone",
             urlWithToken env.github_token env.github_username t.task,
             o.tempdir] code) from by rw [hcl]; rfl]
    dsimp only [PyErr.msg]
    exact ⟨rfl, ⟨"❌ Round 2 revision error: " ++ calledProcessErrorMsg
      ["git", "clone", urlWithToken env.github_token env.github_username t.task,
       o.tempdir] code, by simp, strHas_right _ _⟩⟩
  · intro h c r hx m hf ha hc hcl hp
    rw [hd2 h]
    unfold round2Run round2Body
    rw [hf]
    dsimp only
    rw [ha]
    dsimp only
    rw [hc]
    dsimp only
    rw [show clone_repo env.github_username t.task env.github_token o.tempdir
          o.cloneExit = Except.ok () from by rw [hcl]; rfl]
    dsimp only
    rw [hp]
    dsimp only [PyErr.msg]
    refine ⟨rfl, ⟨"❌ Round 2 revision error: " ++ m, by simp, strHas_right m _⟩⟩
  · intro h r ha hc
    rw [hd1 h]
    unfold round1Run
    rw [ha]
    dsimp only
    rw [hc]
    dsimp only
    refine ⟨rfl, ⟨"LLM response parse error: " ++ pyStrRepr "choices" ++ " " ++
      r.raw, by simp, ?_⟩⟩
    exact strHas_ext_right _ (strHas_ext_right _ (by decide))
  · intro h r hx m ha hc hcr
    rw [hd1 h]
    unfold round1Run
    rw [ha]
    dsimp only
    rw [hc]
    dsimp only
    rw [hcr]
    dsimp only
    refine ⟨rfl, ⟨"LLM response parse error: " ++ m ++ " " ++ r.raw,
      by simp, ?_⟩⟩
    exact strHas_ext_right _ (strHas_ext_right _ (strHas_right m _))
  · intro h r hx u m ha hc hcr hp
    rw [hd1 h]
    unfold round1Run
    rw [ha]
    dsimp only
    rw [hc]
    dsimp only
    rw [hcr]
    dsimp only
    rw [hp]
    dsimp only
    refine ⟨rfl, ⟨"❌ Git push error: " ++ m, by simp, strHas_right m _⟩⟩

/-- Witness for C4 amended at a concrete round-2 run whose fetch fails:
no notification and the failure's message printed. -/
theorem background_error_handling_amended_witness :
    (process_task_background envA
        { oracleA with fetchFile := Except.error "404 Not Found" }
        { taskA with round := 2 }).notified = none ∧
    ∃ line ∈ (process_task_background envA
        { oracleA with fetchFile := Except.error "404 Not Found" }
        { taskA with round := 2 }).log, strHas "404 Not Found" line :=
  (background_error_handling_amended envA
      { oracleA with fetchFile := Except.error "404 Not Found" }
      { taskA with round := 2 }).2.2.2.1 rfl "404 Not Found" rfl

end TdsProj
